import Mathlib

/-
Verification development for python-add-module-as-layer.py: an AWS Lambda
handler that downloads a wheel for a requested PyPI module via pip, rewrites
the wheel's internal entry names under the Lambda site-packages path, and
publishes the resulting zip as a Lambda layer.

The handler is embedded as a pure function of the incoming event together
with an environment record carrying the results of every external effect
(the pip subprocess, the directory listing, the wheel archive's contents,
the Python runtime version, the clock, and the publish_layer_version call).
-/

/-- Python single-character str.split on a list of characters: cut at every
occurrence of the separator, keeping empty fields (so the result is never
empty and has one more element than there are separators). -/
def pySplitAux (sep : Char) : List Char → List Char → List (List Char)
  | [], acc => [acc.reverse]
  | c :: cs, acc =>
    if c = sep then acc.reverse :: pySplitAux sep cs []
    else pySplitAux sep cs (c :: acc)

/-- Python s.split(sep) for a one-character separator, as used at source
line 144: SplitFileName = WheelFileName.split('-'). -/
def pySplit (sep : Char) (s : String) : List String :=
  (pySplitAux sep s.data []).map String.mk

/-- Python file.lower() as applied to wheel file names at source line 121
(ASCII lowering; wheel file names are ASCII). -/
def lowerStr (s : String) : String :=
  String.mk (s.data.map Char.toLower)

/-- Python s.endswith(suf), source line 121. -/
def strEndsWith (s suf : String) : Bool :=
  decide (suf.data.length ≤ s.data.length) &&
  (s.data.drop (s.data.length - suf.data.length) == suf.data)

/-- Python ModuleVersion.replace(".", ""), source line 205: replacing a
one-character substring by the empty string removes every occurrence. -/
def removeDots (s : String) : String :=
  String.mk (s.data.filter (fun c => c != '.'))

/-- One zip archive entry: its name, the metadata fields the relocation is
supposed to leave alone (permission bits held in ZipInfo.external_attr, the
date_time modification stamp, the compression method), and its decoded byte
content. -/
structure ZipEntry where
  filename : String
  permBits : Nat
  modTime : Nat
  compressType : Nat
  content : List Nat
deriving DecidableEq, Repr

/-- Python InZipFile.read(name), source line 179. zipfile resolves the name
through the NameToInfo dictionary, which is filled in central-directory
order, so a name shared by several entries maps to the LAST entry bearing
it: every read of a duplicated name returns that last entry's bytes. -/
def zipRead (entries : List ZipEntry) (nm : String) : List Nat :=
  match entries.reverse.find? (fun e => e.filename == nm) with
  | some e => e.content
  | none => []

/-- The relocation loop, source lines 175-183: for each ZipInfo of the input
archive, in infolist order, read the bytes under the entry's ORIGINAL name,
prepend the site-packages path to the name, and writestr the entry into the
output archive. writestr keeps the ZipInfo's date_time, external_attr and
compress_type, so only filename and (via the by-name read) content can
differ from the source entry. -/
def relocateEntries (pathPfx : String) (entries : List ZipEntry) : List ZipEntry :=
  entries.map (fun curZipInfo =>
    { curZipInfo with
        filename := pathPfx ++ "/" ++ curZipInfo.filename,
        content := zipRead entries curZipInfo.filename })

/-- The wheel-selection loop, source lines 119-125: WheelFileName starts as
the empty string and becomes the first file in directory-listing order whose
lowercased name ends in ".whl" (then the loop breaks). -/
def findWheelFile : List String → String
  | [] => ""
  | f :: rest => if strEndsWith (lowerStr f) ".whl" then f else findWheelFile rest

/-- Source lines 144-146: ModuleVersion = WheelFileName.split('-')[1].
The none case models the IndexError Python raises when the split yields
fewer than two hyphen-delimited fields. -/
def moduleVersionOf (wheelFileName : String) : Option String :=
  (pySplit '-' wheelFileName)[1]?

/-- The Lambda invocation event: event["ModuleName"] and the optional
event["CustomLayerName"]; none models an absent key (KeyError on access). -/
structure LambdaEvent where
  moduleNameField : Option String
  customLayerNameField : Option String
deriving DecidableEq, Repr

/-- Results of every external effect the handler performs, fixed for one
invocation: whether the pip subprocess exited 0 and the str() of its stderr,
the os.listdir of the download folder after pip ran, the parsed entries of
the downloaded wheel, sys.version_info major/minor, the datetime string used
in the output zip's name, and the error raised by publish_layer_version
(none when the publish call succeeds). -/
structure Env where
  pipReturncodeZero : Bool
  pipStderrStr : String
  listedFiles : List String
  wheelEntries : List ZipEntry
  pyMajor : Nat
  pyMinor : Nat
  dateTimeString : String
  publishError : Option String
deriving DecidableEq, Repr

/-- The dictionary the handler returns: StatusCode, the optional
FunctionError tag, and the Payload message. -/
structure LambdaResponse where
  StatusCode : Nat
  FunctionError : Option String
  Payload : String
deriving DecidableEq, Repr

/-- How one invocation ends: a returned response dictionary, or a Python
exception that propagates out of lambda_handler uncaught. -/
inductive Outcome where
  | ret (r : LambdaResponse)
  | uncaught (exc : String)
deriving DecidableEq, Repr

/-- The arguments handed to LambdaClient.publish_layer_version at source
lines 211-212: the layer name, the relocated archive whose serialized bytes
are passed as Content ZipFile, and the CompatibleRuntimes tag. -/
structure PublishArgs where
  LayerName : String
  zipFileContentEntries : List ZipEntry
  CompatibleRuntimes : List String
deriving DecidableEq, Repr

/-- Which invocation-created temporary artifacts still exist when the
handler ends: the download folder /tmp/LayerModule_<name>, the pip cache
folder, the relocated output zip, and the files remaining inside the
download folder. -/
structure TmpState where
  moduleFolderExists : Bool
  cacheFolderExists : Bool
  newZipExists : Bool
  dirFiles : List String
deriving DecidableEq, Repr

/-- Everything observable about one handler invocation: its outcome, the
arguments of the publish call when that call was reached (none when the
handler ended earlier), and the temporary artifacts left behind. -/
structure HandlerRun where
  outcome : Outcome
  publishArgs : Option PublishArgs
  tmp : TmpState
deriving DecidableEq, Repr

/-- The Lambda handler, source lines 32-230, step for step:
guard ModuleName (404 on KeyError; str(KeyError('ModuleName')) is
"'ModuleName'", and the r"..." payload pieces are raw strings, so the
backslash-n is literal); read optional CustomLayerName; mkdir the download
and pip cache folders; run pip download (404 when it exits nonzero); pick
the first listed .whl file (404 when none); take split('-')[1] as the
version (uncaught IndexError when out of range); build the site-packages
path from the runtime version; relocate the wheel's entries into a new zip;
os.remove the wheel; rmtree the pip cache; name the layer (generated unless
a custom name was given); call publish_layer_version (500 on any exception,
leaving the new zip and download folder in place); on success os.remove the
new zip and os.rmdir the download folder (os.rmdir raises OSError when
other files remain in it) and return 200. -/
def lambda_handler (event : LambdaEvent) (env : Env) : HandlerRun :=
  match event.moduleNameField with
  | none =>
    { outcome := .ret
        { StatusCode := 404,
          FunctionError := some "ResourceNotFoundException",
          Payload := "No argument for ModuleName was provided in the context name: "
            ++ "\\nError: " ++ "'ModuleName'" },
      publishArgs := none,
      tmp := { moduleFolderExists := false, cacheFolderExists := false,
               newZipExists := false, dirFiles := [] } }
  | some ModuleName =>
    let CustomLayerName := event.customLayerNameField.getD ""
    if env.pipReturncodeZero then
      let WheelFileName := findWheelFile env.listedFiles
      if WheelFileName = "" then
        { outcome := .ret
            { StatusCode := 404,
              FunctionError := some "ResourceNotFoundException",
              Payload := "pip was not able to download a wheel file for " ++ ModuleName },
          publishArgs := none,
          tmp := { moduleFolderExists := true, cacheFolderExists := true,
                   newZipExists := false, dirFiles := env.listedFiles } }
      else
        match (pySplit '-' WheelFileName)[1]? with
        | none =>
          { outcome := .uncaught "IndexError: list index out of range",
            publishArgs := none,
            tmp := { moduleFolderExists := true, cacheFolderExists := true,
                     newZipExists := false, dirFiles := env.listedFiles } }
        | some ModuleVersion =>
          let PythonVersionDot := Nat.repr env.pyMajor ++ "." ++ Nat.repr env.pyMinor
          let PythonVersionNoDot := Nat.repr env.pyMajor ++ Nat.repr env.pyMinor
          let ExtendedPythonModulePathName :=
            "/python/lib/python" ++ PythonVersionDot ++ "/site-packages"
          let NewZipFileName :=
            ModuleName ++ "_layer_ver_" ++ ModuleVersion ++ "_" ++ env.dateTimeString ++ ".zip"
          let OutEntries := relocateEntries ExtendedPythonModulePathName env.wheelEntries
          let DirAfterWheelRemoved := env.listedFiles.filter (fun f => f != WheelFileName)
          let NewLayerName :=
            if CustomLayerName = "" then
              ModuleName ++ "_" ++ removeDots ModuleVersion ++ "_py" ++ PythonVersionNoDot
            else CustomLayerName
          let args : PublishArgs :=
            { LayerName := NewLayerName,
              zipFileContentEntries := OutEntries,
              CompatibleRuntimes := ["python" ++ PythonVersionDot] }
          match env.publishError with
          | some m =>
            { outcome := .ret
                { StatusCode := 500,
                  FunctionError := some "ServiceException",
                  Payload := "There was a problem when calling the Python boto3 publish_layer_version function: " ++ m },
              publishArgs := some args,
              tmp := { moduleFolderExists := true, cacheFolderExists := false,
                       newZipExists := true, dirFiles := DirAfterWheelRemoved } }
          | none =>
            let DirAfterZipRemoved := DirAfterWheelRemoved.filter (fun f => f != NewZipFileName)
            if DirAfterZipRemoved.isEmpty then
              { outcome := .ret
                  { StatusCode := 200,
                    FunctionError := none,
                    Payload := "New layer was succesfully created with the name " ++ NewLayerName },
                publishArgs := some args,
                tmp := { moduleFolderExists := false, cacheFolderExists := false,
                         newZipExists := false, dirFiles := [] } }
            else
              { outcome := .uncaught "OSError: [Errno 39] Directory not empty",
                publishArgs := some args,
                tmp := { moduleFolderExists := true, cacheFolderExists := false,
                         newZipExists := false, dirFiles := DirAfterZipRemoved } }
    else
      { outcome := .ret
          { StatusCode := 404,
            FunctionError := some "ResourceNotFoundException",
            Payload := "pip was not able to find a module for " ++ ModuleName
              ++ "\\nError:" ++ env.pipStderrStr },
        publishArgs := none,
        tmp := { moduleFolderExists := true, cacheFolderExists := true,
                 newZipExists := false, dirFiles := env.listedFiles } }

/-- The wheel file of the spec's Scenario A. -/
def wheelA : String := "examplepkg-1.2.3-py3-none-any.whl"

/-- Scenario A event: ModuleName "examplepkg", no custom layer name. -/
def evA : LambdaEvent :=
  { moduleNameField := some "examplepkg", customLayerNameField := none }

/-- Scenario A environment: pip succeeds and deposits exactly the Scenario A
wheel, Python runtime 3.9, publish succeeds. -/
def envA : Env :=
  { pipReturncodeZero := true, pipStderrStr := "",
    listedFiles := [wheelA], wheelEntries := [],
    pyMajor := 3, pyMinor := 9,
    dateTimeString := "2020-05-17T10:00:00", publishError := none }

/-- A sample wheel entry. -/
def entX : ZipEntry :=
  { filename := "examplepkg/init.py", permBits := 420, modTime := 7,
    compressType := 8, content := [1, 2] }

/-- A second sample wheel entry with a different name. -/
def entY : ZipEntry :=
  { filename := "examplepkg/util.py", permBits := 420, modTime := 7,
    compressType := 8, content := [3] }

/-- First of two source entries sharing one name but holding different
bytes (zip archives may carry duplicate names). -/
def dupEntryA : ZipEntry :=
  { filename := "a", permBits := 0, modTime := 0, compressType := 0, content := [1] }

/-- Second entry with the same name as dupEntryA but different bytes. -/
def dupEntryB : ZipEntry :=
  { filename := "a", permBits := 0, modTime := 0, compressType := 0, content := [2] }

/-- An archive with two same-named entries of different content. -/
def dupArchive : List ZipEntry := [dupEntryA, dupEntryB]

/-- The site-packages path the handler derives for runtime 3.9. -/
def pfx39 : String := "/python/lib/python3.9/site-packages"

/-- Environment in which the boto3 publish call raises. -/
def envPubFail : Env :=
  { pipReturncodeZero := true, pipStderrStr := "",
    listedFiles := [wheelA], wheelEntries := [entX],
    pyMajor := 3, pyMinor := 9,
    dateTimeString := "2020-05-17T10:00:00",
    publishError := some "An error occurred (AccessDeniedException) when calling the PublishLayerVersion operation" }

/-- Event whose ModuleName key is absent. -/
def evNoName : LambdaEvent := { moduleNameField := none, customLayerNameField := none }

/-- Event carrying an empty-but-present ModuleName. -/
def evEmptyName : LambdaEvent :=
  { moduleNameField := some "", customLayerNameField := none }

/-- Event for a module whose wheel file name carries no hyphen. -/
def evM : LambdaEvent := { moduleNameField := some "weirdpkg", customLayerNameField := none }

/-- Environment whose downloaded wheel file name has a single
hyphen-delimited field. -/
def envM : Env :=
  { pipReturncodeZero := true, pipStderrStr := "",
    listedFiles := ["weirdpkg.whl"], wheelEntries := [],
    pyMajor := 3, pyMinor := 9, dateTimeString := "t", publishError := none }

/-- A second no-hyphen-wheel environment, for the amended-claim witness. -/
def envM2 : Env :=
  { pipReturncodeZero := true, pipStderrStr := "",
    listedFiles := ["single.whl"], wheelEntries := [],
    pyMajor := 3, pyMinor := 8, dateTimeString := "t", publishError := none }

/-- Event that supplies the empty string as CustomLayerName. -/
def evCustomEmpty : LambdaEvent :=
  { moduleNameField := some "examplepkg", customLayerNameField := some "" }

/-- Event that supplies a non-empty custom layer name. -/
def evCustom : LambdaEvent :=
  { moduleNameField := some "examplepkg", customLayerNameField := some "MyLayer" }

/-- Environment where pip succeeded but deposited only a source tarball,
no .whl file. -/
def envNoWhl : Env :=
  { pipReturncodeZero := true, pipStderrStr := "",
    listedFiles := ["weirdpkg-1.0.tar.gz"], wheelEntries := [],
    pyMajor := 3, pyMinor := 9, dateTimeString := "t", publishError := none }

/-- Helper for the relocation proofs: when the source archive's entry names
are pairwise distinct, reading an entry's name through the NameToInfo
dictionary returns that entry's own bytes. -/
theorem zipRead_of_nodup {entries : List ZipEntry}
    (hnd : (entries.map ZipEntry.filename).Nodup) {e : ZipEntry} (he : e ∈ entries) :
    zipRead entries e.filename = e.content := by
  unfold zipRead
  have hmem : e ∈ entries.reverse := List.mem_reverse.mpr he
  have hsome : (entries.reverse.find? (fun x => x.filename == e.filename)).isSome := by
    rw [List.find?_isSome]
    exact ⟨e, hmem, by simp⟩
  obtain ⟨a, ha⟩ := Option.isSome_iff_exists.mp hsome
  have hpa := List.find?_some ha
  have hamem : a ∈ entries := List.mem_reverse.mp (List.mem_of_find?_eq_some ha)
  have hae : a = e := List.inj_on_of_nodup_map hnd hamem he (by simpa using hpa)
  rw [ha, hae]

/-- Claim C1 (amended): for a source archive whose entry names are pairwise
distinct, the relocation loop yields an archive with the same number of
entries, in the same order, the i-th output entry named
pathPfx ++ "/" ++ (name of the i-th source entry) and holding exactly the
i-th source entry's bytes. -/
theorem C1_relocation_correct (entries : List ZipEntry) (pathPfx : String)
    (hnd : (entries.map ZipEntry.filename).Nodup) :
    (relocateEntries pathPfx entries).length = entries.length ∧
    ∀ i : Nat,
      ((relocateEntries pathPfx entries)[i]?).map ZipEntry.filename
        = (entries[i]?).map (fun e => pathPfx ++ "/" ++ e.filename) ∧
      ((relocateEntries pathPfx entries)[i]?).map ZipEntry.content
        = (entries[i]?).map ZipEntry.content := by
  refine ⟨by simp [relocateEntries], ?_⟩
  intro i
  cases h : entries[i]? with
  | none => simp [relocateEntries, List.getElem?_map, h]
  | some e =>
    have he : e ∈ entries := List.getElem?_mem h
    simp [relocateEntries, List.getElem?_map, h, zipRead_of_nodup hnd he]

/-- Witness for C1: the amended relocation theorem applied to a concrete
two-entry archive with distinct names. -/
theorem C1_relocation_correct_witness :
    (([entX, entY].map ZipEntry.filename).Nodup) ∧
    (relocateEntries pfx39 [entX, entY]).length = 2 ∧
    ((relocateEntries pfx39 [entX, entY])[0]?).map ZipEntry.content = some [1, 2] := by
  have h := C1_relocation_correct [entX, entY] pfx39 (by decide)
  refine ⟨by decide, ?_, ?_⟩
  · rw [h.1]; decide
  · rw [(h.2 0).2]; decide

/-- Counterexample to claim C1 as stated: on a valid archive carrying two
same-named entries with different bytes, the loop's by-name read duplicates
the last entry's bytes, so the first entry's content appears nowhere in the
output even though the entry count is preserved. -/
theorem C1_counterexample :
    ¬ ((relocateEntries pfx39 dupArchive).length = dupArchive.length ∧
       ∀ e ∈ dupArchive, ∃ e2 ∈ relocateEntries pfx39 dupArchive,
         e2.filename = pfx39 ++ "/" ++ e.filename ∧ e2.content = e.content) := by
  decide

/-- Claim C8: relocating an already-relocated archive with the same path
applies the path a second time, entry for entry: the count is unchanged by
the second application (nothing merged, dropped, or deduplicated) and every
name is double-prefixed, with no normalization. -/
theorem C8_double_relocation (entries : List ZipEntry) (pathPfx : String) :
    (relocateEntries pathPfx (relocateEntries pathPfx entries)).length
      = (relocateEntries pathPfx entries).length ∧
    (relocateEntries pathPfx (relocateEntries pathPfx entries)).length = entries.length ∧
    ∀ i : Nat,
      ((relocateEntries pathPfx (relocateEntries pathPfx entries))[i]?).map ZipEntry.filename
        = (entries[i]?).map (fun e => pathPfx ++ "/" ++ (pathPfx ++ "/" ++ e.filename)) := by
  refine ⟨by simp [relocateEntries], by simp [relocateEntries], ?_⟩
  intro i
  cases h : entries[i]? <;> simp [relocateEntries, List.getElem?_map, h]

/-- Helper for the version-parse proofs: splitting a list that starts with a
separator-free block followed by a separator cuts exactly at that separator. -/
theorem pySplitAux_sep_split (sep : Char) (ys : List Char) :
    ∀ xs acc, sep ∉ xs →
      pySplitAux sep (xs ++ sep :: ys) acc = (acc.reverse ++ xs) :: pySplitAux sep ys [] := by
  intro xs
  induction xs with
  | nil => intro acc h; simp [pySplitAux]
  | cons c cs ih =>
    intro acc h
    rw [List.mem_cons] at h
    push_neg at h
    have hc : ¬ c = sep := fun hh => h.1 hh.symm
    simp only [List.cons_append, pySplitAux, if_neg hc, List.append_eq]
    rw [ih (c :: acc) h.2]
    simp

/-- Claim C9: the relocation loop rewrites only entry names; the i-th output
entry keeps the i-th source entry's permission bits, modification timestamp,
and compression method. -/
theorem C9_metadata_preserved (entries : List ZipEntry) (pathPfx : String) :
    ∀ i : Nat,
      ((relocateEntries pathPfx entries)[i]?).map ZipEntry.permBits
        = (entries[i]?).map ZipEntry.permBits ∧
      ((relocateEntries pathPfx entries)[i]?).map ZipEntry.modTime
        = (entries[i]?).map ZipEntry.modTime ∧
      ((relocateEntries pathPfx entries)[i]?).map ZipEntry.compressType
        = (entries[i]?).map ZipEntry.compressType := by
  intro i
  cases h : entries[i]? <;> simp [relocateEntries, List.getElem?_map, h]

/-- Claim C3: for a downloaded wheel name of the form
name-version-tags (the first two fields hyphen-free), the derived version is
exactly the second hyphen-delimited field; concretely, Scenario A's wheel
yields version "1.2.3", and with no custom override the handler passes the
layer name "examplepkg_123_py39" (module name, version with dots removed,
and the py39 runtime tag) to the publish call. -/
theorem C3_version_and_layer_name :
    (∀ nm ver rest : String, '-' ∉ nm.data → '-' ∉ ver.data →
       moduleVersionOf (nm ++ "-" ++ ver ++ "-" ++ rest) = some ver) ∧
    moduleVersionOf wheelA = some "1.2.3" ∧
    ((lambda_handler evA envA).publishArgs).map PublishArgs.LayerName
      = some "examplepkg_123_py39" := by
  refine ⟨?_, by decide, by decide⟩
  intro nm ver rest h1 h2
  unfold moduleVersionOf pySplit
  have hdata : (nm ++ "-" ++ ver ++ "-" ++ rest).data
      = nm.data ++ '-' :: (ver.data ++ '-' :: rest.data) := by
    simp [String.data_append]
  rw [hdata]
  rw [pySplitAux_sep_split '-' (ver.data ++ '-' :: rest.data) nm.data [] h1]
  rw [pySplitAux_sep_split '-' rest.data ver.data [] h2]
  simp

/-- Witness for C3: the hyphen-free hypotheses hold at Scenario A's fields
and the theorem then computes the version "1.2.3". -/
theorem C3_version_and_layer_name_witness :
    ('-' ∉ "examplepkg".data) ∧ ('-' ∉ "1.2.3".data) ∧
    moduleVersionOf ("examplepkg" ++ "-" ++ "1.2.3" ++ "-" ++ "py3-none-any.whl")
      = some "1.2.3" := by
  refine ⟨by decide, by decide, ?_⟩
  exact (C3_version_and_layer_name).1 "examplepkg" "1.2.3" "py3-none-any.whl"
    (by decide) (by decide)

/-- Counterexample to claim C4 as stated: when the wheel file name has a
single hyphen-delimited field, the version parse does not produce a handled
not-found-class result; lambda_handler ends in an uncaught IndexError, never
reaching the publish call. -/
theorem C4_counterexample :
    moduleVersionOf "weirdpkg.whl" = none ∧
    (lambda_handler evM envM).outcome = .uncaught "IndexError: list index out of range" ∧
    (lambda_handler evM envM).publishArgs = none := by
  decide

/-- Claim C4 (amended): when the downloaded wheel file name has fewer than
two hyphen-delimited fields, the handler raises an uncaught IndexError
instead of returning any response (the MalformedName condition is not
handled). -/
theorem C4_uncaught_index_error (ev : LambdaEvent) (env : Env) (nm w : String)
    (h1 : ev.moduleNameField = some nm)
    (h2 : env.pipReturncodeZero = true)
    (h3 : findWheelFile env.listedFiles = w)
    (h4 : w ≠ "")
    (h5 : (pySplit '-' w).length < 2) :
    (lambda_handler ev env).outcome = .uncaught "IndexError: list index out of range" := by
  have h6 : (pySplit '-' w)[1]? = none := by
    rw [List.getElem?_eq_none]
    omega
  simp [lambda_handler, h1, h2, h3, h4, h6]

/-- Witness for C4's amended theorem at a concrete hyphen-free wheel name. -/
theorem C4_uncaught_index_error_witness :
    evM.moduleNameField = some "weirdpkg" ∧ envM2.pipReturncodeZero = true ∧
    findWheelFile envM2.listedFiles = "single.whl" ∧ "single.whl" ≠ "" ∧
    (pySplit '-' "single.whl").length < 2 ∧
    (lambda_handler evM envM2).outcome = .uncaught "IndexError: list index out of range" := by
  refine ⟨by decide, by decide, by decide, by decide, by decide, ?_⟩
  exact C4_uncaught_index_error evM envM2 "weirdpkg" "single.whl"
    (by decide) (by decide) (by decide) (by decide) (by decide)

/-- Claim C6: whenever publish_layer_version raises, the handler returns
StatusCode 500, FunctionError ServiceException, and a payload that carries
the underlying exception's text after the fixed message. -/
theorem C6_publish_failure_500 (ev : LambdaEvent) (env : Env) (nm w ver m : String)
    (h1 : ev.moduleNameField = some nm)
    (h2 : env.pipReturncodeZero = true)
    (h3 : findWheelFile env.listedFiles = w)
    (h4 : w ≠ "")
    (h5 : (pySplit '-' w)[1]? = some ver)
    (h6 : env.publishError = some m) :
    (lambda_handler ev env).outcome = .ret
      { StatusCode := 500, FunctionError := some "ServiceException",
        Payload := "There was a problem when calling the Python boto3 publish_layer_version function: " ++ m } := by
  simp [lambda_handler, h1, h2, h3, h4, h5, h6]

/-- Witness for C6 at Scenario A's wheel with a failing publish call. -/
theorem C6_publish_failure_500_witness :
    (lambda_handler evA envPubFail).outcome = .ret
      { StatusCode := 500, FunctionError := some "ServiceException",
        Payload := "There was a problem when calling the Python boto3 publish_layer_version function: "
          ++ "An error occurred (AccessDeniedException) when calling the PublishLayerVersion operation" } := by
  exact C6_publish_failure_500 evA envPubFail "examplepkg" wheelA "1.2.3"
    "An error occurred (AccessDeniedException) when calling the PublishLayerVersion operation"
    (by decide) (by decide) (by decide) (by decide) (by decide) (by decide)

/-- Counterexample to claim C7 as stated: an invocation that supplies the
CustomLayerName key with the empty string does NOT get its custom value
passed to the publish call; the generated name is used instead. -/
theorem C7_counterexample :
    evCustomEmpty.customLayerNameField = some "" ∧
    ((lambda_handler evCustomEmpty envA).publishArgs).map PublishArgs.LayerName
      = some "examplepkg_123_py39" ∧
    "examplepkg_123_py39" ≠ "" := by
  decide

/-- Claim C7 (amended): for every invocation that supplies a NON-EMPTY
custom layer name, the generated name is ignored and the LayerName passed to
the publish call is the supplied custom value verbatim. -/
theorem C7_custom_name_used (ev : LambdaEvent) (env : Env) (nm c w ver : String)
    (h0 : ev.moduleNameField = some nm)
    (hc : ev.customLayerNameField = some c)
    (hcne : c ≠ "")
    (h2 : env.pipReturncodeZero = true)
    (h3 : findWheelFile env.listedFiles = w)
    (h4 : w ≠ "")
    (h5 : (pySplit '-' w)[1]? = some ver) :
    ((lambda_handler ev env).publishArgs).map PublishArgs.LayerName = some c := by
  cases hpe : env.publishError with
  | some m => simp [lambda_handler, h0, hc, hcne, h2, h3, h4, h5, hpe]
  | none => simp [lambda_handler, h0, hc, hcne, h2, h3, h4, h5, hpe, apply_ite]

/-- Witness for C7's amended theorem with the custom name "MyLayer". -/
theorem C7_custom_name_used_witness :
    evCustom.customLayerNameField = some "MyLayer" ∧
    ((lambda_handler evCustom envA).publishArgs).map PublishArgs.LayerName
      = some "MyLayer" := by
  refine ⟨by decide, ?_⟩
  exact C7_custom_name_used evCustom envA "examplepkg" "MyLayer" wheelA "1.2.3"
    (by decide) (by decide) (by decide) (by decide) (by decide) (by decide) (by decide)

/-- Counterexample to claim C2 as stated: an invocation that reaches the
publish step and whose publish call fails returns with the relocated zip and
the download folder still in existence — those artifacts outlive the failed
invocation. -/
theorem C2_counterexample :
    (lambda_handler evA envPubFail).publishArgs.isSome = true ∧
    (lambda_handler evA envPubFail).tmp.newZipExists = true ∧
    (lambda_handler evA envPubFail).tmp.moduleFolderExists = true := by
  decide

/-- Claim C2 (amended): after a FAILED publish call the relocated zip and
the download folder are NOT deleted (only the wheel and the pip cache are
already gone); only after a successful publish, with the wheel the only file
pip left in the download folder, are all temporary artifacts deleted before
the handler returns. -/
theorem C2_cleanup (ev : LambdaEvent) (env : Env) (nm w ver : String)
    (h1 : ev.moduleNameField = some nm)
    (h2 : env.pipReturncodeZero = true)
    (h3 : findWheelFile env.listedFiles = w)
    (h4 : w ≠ "")
    (h5 : (pySplit '-' w)[1]? = some ver) :
    (∀ m, env.publishError = some m →
       (lambda_handler ev env).tmp.newZipExists = true ∧
       (lambda_handler ev env).tmp.moduleFolderExists = true ∧
       (lambda_handler ev env).tmp.cacheFolderExists = false) ∧
    (env.publishError = none → env.listedFiles = [w] →
       (lambda_handler ev env).tmp =
         { moduleFolderExists := false, cacheFolderExists := false,
           newZipExists := false, dirFiles := [] }) := by
  constructor
  · intro m hm
    refine ⟨?_, ?_, ?_⟩ <;> simp [lambda_handler, h1, h2, h3, h4, h5, hm]
  · intro hm hl
    have hfe : env.listedFiles.filter (fun f => f != w) = [] := by
      rw [hl]; simp
    simp [lambda_handler, h1, h2, h3, h4, h5, hm, hfe]

/-- Witness for C2's amended theorem: with the failing publish environment,
the relocated zip still exists at return. -/
theorem C2_cleanup_witness :
    envPubFail.publishError
      = some "An error occurred (AccessDeniedException) when calling the PublishLayerVersion operation" ∧
    (lambda_handler evA envPubFail).tmp.newZipExists = true := by
  refine ⟨by decide, ?_⟩
  exact ((C2_cleanup evA envPubFail "examplepkg" wheelA "1.2.3"
    (by decide) (by decide) (by decide) (by decide) (by decide)).1
    "An error occurred (AccessDeniedException) when calling the PublishLayerVersion operation"
    (by decide)).1

/-- Helper: when no listed file's lowercased name ends in ".whl", the
selection loop leaves WheelFileName as the empty string. -/
theorem findWheelFile_eq_empty (files : List String)
    (h : ∀ g ∈ files, strEndsWith (lowerStr g) ".whl" = false) :
    findWheelFile files = "" := by
  induction files with
  | nil => rfl
  | cons a rest ih =>
    have ha := h a (List.mem_cons_self a rest)
    simp only [findWheelFile, ha, Bool.false_eq_true, if_false]
    exact ih fun g hg => h g (List.mem_cons_of_mem a hg)

/-- Helper: the selection loop returns the first listed file, in
directory-listing order, whose lowercased name ends in ".whl". -/
theorem findWheelFile_first (pre : List String) (f : String) (post : List String)
    (hpre : ∀ g ∈ pre, strEndsWith (lowerStr g) ".whl" = false)
    (hf : strEndsWith (lowerStr f) ".whl" = true) :
    findWheelFile (pre ++ f :: post) = f := by
  induction pre with
  | nil => simp [findWheelFile, hf]
  | cons a rest ih =>
    have ha := hpre a (List.mem_cons_self a rest)
    simp only [List.cons_append, findWheelFile, ha, Bool.false_eq_true, if_false]
    exact ih fun g hg => hpre g (List.mem_cons_of_mem a hg)

/-- Claim C10: only files whose lowercased names end in ".whl" are
recognized as distribution archives: a listing with no such file (e.g. only
a source tarball) leaves the wheel name empty and yields the 404 not-found
response, and with several files present the first ".whl" file in
directory-listing order is selected. -/
theorem C10_wheel_selection (files pre post : List String) (f : String)
    (ev : LambdaEvent) (env : Env) (nm : String) :
    ((∀ g ∈ files, strEndsWith (lowerStr g) ".whl" = false) →
       findWheelFile files = "") ∧
    ((∀ g ∈ pre, strEndsWith (lowerStr g) ".whl" = false) →
       strEndsWith (lowerStr f) ".whl" = true →
       findWheelFile (pre ++ f :: post) = f) ∧
    (ev.moduleNameField = some nm → env.pipReturncodeZero = true →
       (∀ g ∈ env.listedFiles, strEndsWith (lowerStr g) ".whl" = false) →
       (lambda_handler ev env).outcome = .ret
         { StatusCode := 404, FunctionError := some "ResourceNotFoundException",
           Payload := "pip was not able to download a wheel file for " ++ nm }) := by
  refine ⟨findWheelFile_eq_empty files, findWheelFile_first pre f post, ?_⟩
  intro h1 h2 h3
  have hw : findWheelFile env.listedFiles = "" := findWheelFile_eq_empty env.listedFiles h3
  simp [lambda_handler, h1, h2, hw]

/-- Witness for C10: an uppercase ".WHL" file is picked over a tarball ahead
of it in the listing, and a tarball-only environment gets the 404. -/
theorem C10_wheel_selection_witness :
    findWheelFile (["a.tar.gz"] ++ "b-1.0-py3-none-any.WHL" :: ["c.whl"])
      = "b-1.0-py3-none-any.WHL" ∧
    (lambda_handler evM envNoWhl).outcome = .ret
      { StatusCode := 404, FunctionError := some "ResourceNotFoundException",
        Payload := "pip was not able to download a wheel file for " ++ "weirdpkg" } := by
  constructor
  · exact (C10_wheel_selection [] ["a.tar.gz"] ["c.whl"] "b-1.0-py3-none-any.WHL"
      evM envNoWhl "weirdpkg").2.1 (by decide) (by decide)
  · exact (C10_wheel_selection [] [] [] "" evM envNoWhl "weirdpkg").2.2
      (by decide) (by decide) (by decide)

/-- Counterexample to claim C5 as stated: an EMPTY-but-present module
identifier is not treated as a not-found condition; the handler proceeds
past the input guard (which only catches an absent key) and, with pip and
publish succeeding, returns 200, not 404. -/
theorem C5_counterexample :
    evEmptyName.moduleNameField = some "" ∧
    (lambda_handler evEmptyName envA).outcome = .ret
      { StatusCode := 200, FunctionError := none,
        Payload := "New layer was succesfully created with the name _123_py39" } := by
  decide

/-- Claim C5 (amended): a MISSING module identifier key, a failing pip run,
and a wheel-free download directory each make the handler return 404 with
FunctionError ResourceNotFoundException, and every 404 response arises from
one of those three conditions (an empty-but-present identifier is not
guarded). -/
theorem C5_notfound_404 (ev : LambdaEvent) (env : Env) :
    (ev.moduleNameField = none →
       (lambda_handler ev env).outcome = .ret
         { StatusCode := 404, FunctionError := some "ResourceNotFoundException",
           Payload := "No argument for ModuleName was provided in the context name: "
             ++ "\\nError: " ++ "'ModuleName'" }) ∧
    (∀ nm, ev.moduleNameField = some nm → env.pipReturncodeZero = false →
       (lambda_handler ev env).outcome = .ret
         { StatusCode := 404, FunctionError := some "ResourceNotFoundException",
           Payload := "pip was not able to find a module for " ++ nm
             ++ "\\nError:" ++ env.pipStderrStr }) ∧
    (∀ nm, ev.moduleNameField = some nm → env.pipReturncodeZero = true →
       findWheelFile env.listedFiles = "" →
       (lambda_handler ev env).outcome = .ret
         { StatusCode := 404, FunctionError := some "ResourceNotFoundException",
           Payload := "pip was not able to download a wheel file for " ++ nm }) ∧
    (∀ r, (lambda_handler ev env).outcome = .ret r → r.StatusCode = 404 →
       r.FunctionError = some "ResourceNotFoundException" ∧
       (ev.moduleNameField = none ∨ env.pipReturncodeZero = false ∨
        findWheelFile env.listedFiles = "")) := by
  refine ⟨?_, ?_, ?_, ?_⟩
  · intro h
    simp [lambda_handler, h]
  · intro nm h1 h2
    simp [lambda_handler, h1, h2]
  · intro nm h1 h2 h3
    simp [lambda_handler, h1, h2, h3]
  · intro r hr h404
    simp only [lambda_handler] at hr
    split at hr
    next heq =>
      injection hr with hr
      subst hr
      exact ⟨rfl, Or.inl heq⟩
    next nm heq =>
      split at hr
      · split at hr
        next hw =>
          injection hr with hr
          subst hr
          exact ⟨rfl, Or.inr (Or.inr hw)⟩
        next hw =>
          split at hr
          next hv =>
            simp at hr
          next ver hv =>
            split at hr
            next m hpe =>
              injection hr with hr
              subst hr
              simp at h404
            next hpe =>
              split at hr
              · injection hr with hr
                subst hr
                simp at h404
              · simp at hr
      · next hpip =>
        injection hr with hr
        subst hr
        simp only [Bool.not_eq_true] at hpip
        exact ⟨rfl, Or.inr (Or.inl hpip)⟩

/-- Witness for C5's amended theorem: an event with no ModuleName key gets
the 404 ResourceNotFoundException response. -/
theorem C5_notfound_404_witness :
    (lambda_handler evNoName envA).outcome = .ret
      { StatusCode := 404, FunctionError := some "ResourceNotFoundException",
        Payload := "No argument for ModuleName was provided in the context name: "
          ++ "\\nError: " ++ "'ModuleName'" } := by
  exact (C5_notfound_404 evNoName envA).1 rfl
